import Mathlib

/-!
Verification of the GCP pricing-calculator automation engine.

This development shallowly embeds the pure decision logic of the repository:

* the `VmConfig → InstanceInput` adapter and its pre-flight validators
  (`lib/gcpConfigAdapter.ts`);
* the Playwright session `runGcpCalculatorAutomation`
  (`lib/gcpCalculatorAutomation.ts`), with every browser interaction modelled
  as a pure environment describing what the driven page would have answered
  (rendered option texts, input-fill outcomes, extracted total/share strings);
* the API route `POST` handler that validates and delegates to the automation
  (`app/api/generate-gcp-url/route.ts` in its adapter-based variant);
* the resilient selector helpers `chooseFromCombobox` / `chooseMachineType`
  and the `generateShareLink` extractor of the inline-automation route.

Machine numbers (JS `number`) are modelled as `Rat`; a field that may be
absent or non-numeric at runtime is an `Option`.  A TS function that can
throw is modelled as `Except String _`; the thrown message is reproduced.
-/

namespace GcpCalc

/-- Decides (as `listStartsWith n h`) whether `n` is a leading segment of `h`
(character-level model of JavaScript `String.prototype.startsWith`). -/
def listStartsWith : List Char → List Char → Bool
  | [], _ => true
  | _ :: _, [] => false
  | a :: as, b :: bs => a == b && listStartsWith as bs

/-- Decides (as `listHasSegment n h`) whether `n` occurs contiguously inside `h`
(character-level model of JavaScript `String.prototype.includes`). -/
def listHasSegment (n : List Char) : List Char → Bool
  | [] => n.isEmpty
  | b :: bs => listStartsWith n (b :: bs) || listHasSegment n bs

/-- JavaScript `haystack.includes(needle)` (case-sensitive). -/
def strIncludes (haystack needle : String) : Bool :=
  listHasSegment needle.data haystack.data

/-- JavaScript `s.startsWith(p)`. -/
def strStarts (p s : String) : Bool :=
  listStartsWith p.data s.data

/-- JavaScript `s.toLowerCase()` (character-wise, which agrees with it on
the ASCII labels this code compares). -/
def strLower (s : String) : String :=
  ⟨s.data.map Char.toLower⟩

/-- JavaScript `s.toUpperCase()` (character-wise). -/
def strUpper (s : String) : String :=
  ⟨s.data.map Char.toUpper⟩

/-- JavaScript `s.trim()`: strip leading and trailing whitespace. -/
def strTrim (s : String) : String :=
  ⟨((s.data.dropWhile Char.isWhitespace).reverse.dropWhile Char.isWhitespace).reverse⟩

/-- Helper `ciContains` from `gcpCalculatorAutomation.ts`:
`haystack.toLowerCase().includes(needle.toLowerCase())`. -/
def ciContains (haystack needle : String) : Bool :=
  strIncludes (strLower haystack) (strLower needle)

/-! ## Data model (`lib/calculator.ts`, `lib/gcpCalculatorAutomation.ts`) -/

/-- The committed-use union type `'none' | '1 year' | '3 years'` of
`InstanceInput.committedUse`. -/
inductive CommittedUse where
  | none
  | oneYear
  | threeYears
deriving DecidableEq, Repr

/-- The display string of a committed-use literal, as it appears in the
TS union type. -/
def committedUseLabel : CommittedUse → String
  | CommittedUse.none => "none"
  | CommittedUse.oneYear => "1 year"
  | CommittedUse.threeYears => "3 years"

/-- The fields of the `VmConfig` interface that the adapter and the
validators read.  `quantity` and `runningHours` are `Option Rat` because the
validator performs a runtime `typeof … !== 'number'` check on them; `os` and
`provisioningModel` are `Option String` because the adapter guards them with
truthiness checks.  Pricing fields (`onDemandPerHour`, …) and display fields
(`family`, `description`, …) are never consulted by the functions modelled
here and are omitted. -/
structure VmConfig where
  id : String
  name : String
  series : String
  regionLocation : String
  os : Option String
  provisioningModel : Option String
  quantity : Option Rat
  runningHours : Option Rat
  discountModel : String
deriving DecidableEq, Repr

/-- Type `InstanceInput` from `gcpCalculatorAutomation.ts`. -/
structure InstanceInput where
  numberOfInstances : Rat
  totalHours : Rat
  operatingSystem : String
  provisioningModel : String
  series : String
  machineType : String
  region : String
  committedUse : CommittedUse
deriving DecidableEq, Repr

/-- Type `EstimateRequest` from `gcpCalculatorAutomation.ts`. -/
structure EstimateRequest where
  headless : Bool
  timeoutMs : Option Rat
  service : String
  instances : List InstanceInput
  wantCsvLink : Bool
deriving DecidableEq, Repr

/-! ## Adapter (`lib/gcpConfigAdapter.ts`) -/

/-- Function `mapDiscountModelToCommittedUse`: switch on the lower-cased internal
discount-model name; the `on-demand`, `spot vm`, `none` and default cases all
fall through to `'none'`. -/
def mapDiscountModelToCommittedUse (discountModel : String) : CommittedUse :=
  let s := strLower discountModel
  if s = "1-year cud" ∨ s = "1 year cud" ∨ s = "1-year" ∨ s = "1 year" then
    CommittedUse.oneYear
  else if s = "3-year cud" ∨ s = "3 year cud" ∨ s = "3-year" ∨ s = "3 years" then
    CommittedUse.threeYears
  else
    CommittedUse.none

/-- Function `mapDiscountModelToProvisioningModel`: returns the explicit
`provisioningModel` when truthy; otherwise the code dereferences
`config.provisioningModel.toLowerCase()` again, which throws a `TypeError`
when the field is absent (modelled as `Option.none`) and yields
`'spot'`/`'regular'` when it is the empty string. -/
def mapDiscountModelToProvisioningModel (config : VmConfig) : Option String :=
  match config.provisioningModel with
  | Option.none => Option.none
  | some p =>
    if p ≠ "" then some p
    else some (if strIncludes (strLower p) "spot" then "spot" else "regular")

/-- Function `mapOperatingSystem`: falsy input defaults to `'Linux'`, otherwise a
switch on the lower-cased OS code with default `'Linux'`. -/
def mapOperatingSystem (os : Option String) : String :=
  match os with
  | Option.none => "Linux"
  | some o =>
    let s := strLower o
    if s = "linux" then "Linux"
    else if s = "windows" then "Windows"
    else if s = "rhel" then "Red Hat Enterprise Linux"
    else if s = "rhel_sap" then "Red Hat Enterprise Linux for SAP"
    else if s = "sles" then "SUSE Linux Enterprise Server"
    else if s = "sles_sap" then "SUSE Linux Enterprise Server for SAP"
    else "Linux"

/-- The `regionMap` table of `mapRegion`, in insertion order (JS object
literal keys enumerate in insertion order). -/
def regionMap : List (String × String) :=
  [("us-central1", "Iowa (us-central1)"),
   ("us-east1", "South Carolina (us-east1)"),
   ("us-west1", "Oregon (us-west1)"),
   ("us-west2", "Los Angeles (us-west2)"),
   ("us-west3", "Salt Lake City (us-west3)"),
   ("us-west4", "Las Vegas (us-west4)"),
   ("us-east4", "Northern Virginia (us-east4)"),
   ("us-south1", "Dallas (us-south1)"),
   ("europe-west1", "Belgium (europe-west1)"),
   ("europe-west2", "London (europe-west2)"),
   ("europe-west3", "Frankfurt (europe-west3)"),
   ("europe-west4", "Netherlands (europe-west4)"),
   ("europe-west6", "Zurich (europe-west6)"),
   ("europe-central2", "Warsaw (europe-central2)"),
   ("europe-north1", "Finland (europe-north1)"),
   ("asia-east1", "Taiwan (asia-east1)"),
   ("asia-east2", "Hong Kong (asia-east2)"),
   ("asia-northeast1", "Tokyo (asia-northeast1)"),
   ("asia-northeast2", "Osaka (asia-northeast2)"),
   ("asia-northeast3", "Seoul (asia-northeast3)"),
   ("asia-south1", "Mumbai (asia-south1)"),
   ("asia-south2", "Delhi (asia-south2)"),
   ("asia-southeast1", "Singapore (asia-southeast1)"),
   ("asia-southeast2", "Jakarta (asia-southeast2)"),
   ("australia-southeast1", "Sydney (australia-southeast1)"),
   ("australia-southeast2", "Melbourne (australia-southeast2)"),
   ("southamerica-east1", "São Paulo (southamerica-east1)"),
   ("southamerica-west1", "Santiago (southamerica-west1)"),
   ("northamerica-northeast1", "Montréal (northamerica-northeast1)"),
   ("northamerica-northeast2", "Toronto (northamerica-northeast2)"),
   ("africa-south1", "Johannesburg (africa-south1)"),
   ("mumbai", "Mumbai (asia-south1)")]

/-- Function `mapRegion`: exact key lookup, then first partial match
(`key.includes(loc) || value.toLowerCase().includes(loc.toLowerCase())`),
then a fallback format. -/
def mapRegion (regionLocation : String) : String :=
  match regionMap.find? (fun kv => kv.1 == regionLocation) with
  | some kv => kv.2
  | Option.none =>
    match regionMap.find?
        (fun kv => strIncludes kv.1 regionLocation || ciContains kv.2 regionLocation) with
    | some kv => kv.2
    | Option.none =>
      if strIncludes regionLocation "(" then regionLocation
      else regionLocation ++ " (" ++ regionLocation ++ ")"

/-- Function `vmConfigToInstanceInput`.  `Option.none` models the `TypeError` thrown
by `mapDiscountModelToProvisioningModel` when `provisioningModel` is absent;
`config.quantity || 1` and `config.runningHours || 730` treat `0` (and a
missing number) as falsy. -/
def vmConfigToInstanceInput (config : VmConfig) : Option InstanceInput :=
  match mapDiscountModelToProvisioningModel config with
  | Option.none => Option.none
  | some prov =>
    some
      { numberOfInstances :=
          match config.quantity with
          | some q => if q = 0 then 1 else q
          | Option.none => 1
        totalHours :=
          match config.runningHours with
          | some h => if h = 0 then 730 else h
          | Option.none => 730
        operatingSystem := mapOperatingSystem config.os
        provisioningModel := prov
        series := strUpper config.series
        machineType := config.name
        region := mapRegion config.regionLocation
        committedUse := mapDiscountModelToCommittedUse config.discountModel }

/-- Options record accepted by `vmConfigsToEstimateRequest`. -/
structure AdapterOptions where
  headless : Option Bool
  timeoutMs : Option Rat
  service : Option String
  wantCsvLink : Option Bool
deriving Repr

/-- Function `vmConfigsToEstimateRequest`; `Option.none` propagates the adapter's
`TypeError`. -/
def vmConfigsToEstimateRequest (configs : List VmConfig) (options : AdapterOptions) :
    Option EstimateRequest :=
  match configs.mapM vmConfigToInstanceInput with
  | Option.none => Option.none
  | some insts =>
    some
      { headless := options.headless ≠ some false
        timeoutMs :=
          some (match options.timeoutMs with
                | some t => if t = 0 then 45000 else t
                | Option.none => 45000)
        service :=
          match options.service with
          | some s => if s = "" then "Compute Engine" else s
          | Option.none => "Compute Engine"
        instances := insts
        wantCsvLink := options.wantCsvLink = some true }

/-- Function `validateVmConfigForAutomation`: the per-descriptor pre-flight bounds
check, producing its error messages in source order. -/
def validateVmConfigForAutomation (config : VmConfig) : List String :=
  (if strTrim config.name = "" then ["Machine type name is required"] else []) ++
  (if strTrim config.series = "" then ["Machine series is required"] else []) ++
  (if strTrim config.regionLocation = "" then ["Region location is required"] else []) ++
  (if strTrim config.discountModel = "" then ["Discount model is required"] else []) ++
  (match config.quantity with
   | some q => if q < 1 then ["Quantity must be a positive number"] else []
   | Option.none => ["Quantity must be a positive number"]) ++
  (match config.runningHours with
   | some h =>
     if h < 1 ∨ 744 < h then
       ["Running hours must be between 1 and 744 (max hours per month)"]
     else []
   | Option.none => ["Running hours must be between 1 and 744 (max hours per month)"])

/-- One entry of the `errors` array returned by
`validateVmConfigsForAutomation`. -/
structure ConfigErrorEntry where
  configId : String
  configName : String
  errors : List String
deriving DecidableEq, Repr

/-- Result record of `validateVmConfigsForAutomation`. -/
structure ValidationResult where
  isValid : Bool
  errors : List ConfigErrorEntry
deriving DecidableEq, Repr

/-- Function `validateVmConfigsForAutomation`: an empty list is rejected outright,
otherwise every descriptor is bounds-checked and the failing ones
collected. -/
def validateVmConfigsForAutomation (configs : List VmConfig) : ValidationResult :=
  if configs.isEmpty then
    { isValid := false
      errors := [{ configId := "", configName := "General",
                   errors := ["At least one configuration is required"] }] }
  else
    let configErrors :=
      (configs.map (fun config =>
        { configId := config.id
          configName := if config.name = "" then "Unnamed Configuration" else config.name
          errors := validateVmConfigForAutomation config : ConfigErrorEntry })).filter
        (fun r => !r.errors.isEmpty)
    { isValid := configErrors.isEmpty, errors := configErrors }

/-! ## Playwright session (`lib/gcpCalculatorAutomation.ts`)

Every Playwright interaction is modelled by an environment field recording
what the driven page would have answered: a dropdown is the list of trimmed
option texts it renders, a fill/click is a boolean saying whether the
(retried) action succeeded, and the total/share extraction is the `Option`al
string the page yielded.  Clicking an option that the environment says is
rendered is modelled as succeeding. -/

/-- The open option list consulted by `pickFromOpenList`: whether
`list.waitFor` found it visible, and the trimmed inner texts of its rendered
options in DOM order. -/
structure ListEnv where
  visible : Bool
  options : List String
deriving DecidableEq, Repr

/-- Function `pickFromOpenList`: exact case-insensitive match over the rendered
options, then `ciContains` fuzzy match, throwing when the list is hidden,
empty, or has no match. -/
def pickFromOpenList (env : ListEnv) (desiredLabel : String) : Except String String :=
  if !env.visible then Except.error "dropdown list not visible"
  else if env.options.isEmpty then Except.error "No dropdown options visible"
  else
    match env.options.find? (fun txt => strLower txt == strLower desiredLabel) with
    | some txt => Except.ok txt
    | Option.none =>
      match env.options.find? (fun txt => ciContains txt desiredLabel) with
      | some txt => Except.ok txt
      | Option.none =>
        Except.error ("Option not found in dropdown: \"" ++ desiredLabel ++ "\"")

/-- A combobox as `selectComboboxOption` sees it: whether `openCombobox`
managed to click it open, its option list, and the combobox's inner text
after choosing (used for the reflected-selection assertion, which tests a
case-insensitive escaped regex of the chosen label). -/
structure ComboEnv where
  openOk : Bool
  list : ListEnv
  comboText : String
deriving DecidableEq, Repr

/-- Function `selectComboboxOption`: open, pick, then assert the choice is reflected
in the combobox text. -/
def selectComboboxOption (env : ComboEnv) (desiredLabel : String) : Except String String :=
  if !env.openOk then Except.error "combobox not interactable"
  else
    match pickFromOpenList env.list desiredLabel with
    | Except.error e => Except.error e
    | Except.ok chosen =>
      if ciContains env.comboText chosen then Except.ok chosen
      else Except.error ("Selection not reflected: " ++ chosen)

/-- The configuration stages of `addOneInstance`, in source order.
`commit` is the pane-level add-to-estimate click. -/
inductive Stage where
  | numInstances
  | usageHours
  | os
  | provisioning
  | series
  | machineType
  | region
  | committedUse
  | commit
  | panelWait
deriving DecidableEq, Repr

/-- One line of `estimateSummary.lineItems`. -/
structure LineItem where
  service : String
  region : String
  series : String
  machineType : String
  instances : Rat
  totalHours : Rat
  committedUse : CommittedUse
  os : String
  subtotalText : Option String
deriving DecidableEq, Repr

/-- The line item `addOneInstance` pushes after a successful commit: an echo
of the instance's request fields plus the best-effort scraped subtotal. -/
def mkLineItem (service : String) (inst : InstanceInput) (subtotal : Option String) :
    LineItem :=
  { service := service
    region := inst.region
    series := inst.series
    machineType := inst.machineType
    instances := inst.numberOfInstances
    totalHours := inst.totalHours
    committedUse := inst.committedUse
    os := inst.operatingSystem
    subtotalText := subtotal }

/-- The page as one `addOneInstance` call sees it.  `radioNone`/`radio1y`/
`radio3y` are the `count() > 0` answers for the committed-use radios;
`addBtnOk` is whether `clickWithRetry` on the pane's add-to-estimate button
succeeded within its three backoffs. -/
structure InstanceEnv where
  numFillOk : Bool
  hoursPresent : Bool
  hoursFillOk : Bool
  osCombo : ComboEnv
  provCombo : ComboEnv
  seriesCombo : ComboEnv
  machineCombo : ComboEnv
  regionCombo : ComboEnv
  radioNone : Bool
  radio1y : Bool
  radio3y : Bool
  cudCombo : ComboEnv
  addBtnOk : Bool
  panelVisible : Bool
  expectTextsOk : Bool
  subtotalText : Option String
deriving DecidableEq, Repr

/-- Source `committedSelected`: some committed-use radio is present and the
radio matching the desired term is among them (in which case it is clicked
and the committed-use combobox fallback is skipped). -/
def committedRadioSelected (env : InstanceEnv) (inst : InstanceInput) : Bool :=
  (env.radioNone || env.radio1y || env.radio3y) &&
  (match inst.committedUse with
   | CommittedUse.none => env.radioNone
   | CommittedUse.oneYear => env.radio1y
   | CommittedUse.threeYears => env.radio3y)

/-- The tail of `addOneInstance` once the committed-use stage settled: the
pane-level add-to-estimate click (`clickWithRetry`, whose exhausted retries
throw), the right-panel visibility wait, and the fuzzy checks that the
line-item texts appeared; on success the echo line item is produced. -/
def commitStage (env : InstanceEnv) (inst : InstanceInput) (service : String)
    (t2 : List Stage) : List Stage × Except String LineItem :=
  if !env.addBtnOk then
    (t2 ++ [Stage.commit], Except.error "Failed to click Add to estimate (pane)")
  else if !env.panelVisible then
    (t2 ++ [Stage.commit, Stage.panelWait], Except.error "estimate panel not visible")
  else if !env.expectTextsOk then
    (t2 ++ [Stage.commit, Stage.panelWait],
     Except.error "expected line item text not visible")
  else
    (t2 ++ [Stage.commit, Stage.panelWait],
     Except.ok (mkLineItem service inst env.subtotalText))

/-- Function `addOneInstance`, also returning the list of stages it reached before
returning.  Stages abort the instance by rethrowing their error — only the
usage-hours fill is skipped when its input is absent (`count() = 0`), and
the committed-use combobox is consulted only when no suitable radio
exists. -/
def addOneInstanceAux (env : InstanceEnv) (inst : InstanceInput) (service : String) :
    List Stage × Except String LineItem :=
  if !env.numFillOk then
    ([Stage.numInstances], Except.error "number of instances input not fillable")
  else if env.hoursPresent && !env.hoursFillOk then
    ([Stage.numInstances, Stage.usageHours], Except.error "usage hours fill failed")
  else
    let t := [Stage.numInstances, Stage.usageHours]
    match selectComboboxOption env.osCombo inst.operatingSystem with
    | Except.error e => (t ++ [Stage.os], Except.error e)
    | Except.ok _ =>
    match selectComboboxOption env.provCombo inst.provisioningModel with
    | Except.error e => (t ++ [Stage.os, Stage.provisioning], Except.error e)
    | Except.ok _ =>
    match selectComboboxOption env.seriesCombo inst.series with
    | Except.error e => (t ++ [Stage.os, Stage.provisioning, Stage.series], Except.error e)
    | Except.ok _ =>
    match selectComboboxOption env.machineCombo inst.machineType with
    | Except.error e =>
      (t ++ [Stage.os, Stage.provisioning, Stage.series, Stage.machineType], Except.error e)
    | Except.ok _ =>
    match selectComboboxOption env.regionCombo inst.region with
    | Except.error e =>
      (t ++ [Stage.os, Stage.provisioning, Stage.series, Stage.machineType, Stage.region],
       Except.error e)
    | Except.ok _ =>
    let t2 := t ++ [Stage.os, Stage.provisioning, Stage.series, Stage.machineType,
                    Stage.region, Stage.committedUse]
    if committedRadioSelected env inst then commitStage env inst service t2
    else
      match selectComboboxOption env.cudCombo (committedUseLabel inst.committedUse) with
      | Except.error e => (t2, Except.error e)
      | Except.ok _ => commitStage env inst service t2

/-- The `Except` view of `addOneInstance`. -/
def addOneInstance (env : InstanceEnv) (inst : InstanceInput) (service : String) :
    Except String LineItem :=
  (addOneInstanceAux env inst service).2

/-- Result of the per-instance loop in `runGcpCalculatorAutomation`: either
every instance committed (with its collected summaries), or the loop's
exception escaped at the given instance index, discarding the summaries
gathered so far. -/
inductive LoopResult where
  | ok (items : List LineItem)
  | fail (idx : Nat) (err : String)
deriving DecidableEq, Repr

/-- The `for` loop over `estimateRequest.instances`: instances are processed
strictly in request order and the first `addOneInstance` exception aborts
the loop. -/
def runInstancesLoop (service : String) (envs : Nat → InstanceEnv) :
    Nat → List InstanceInput → LoopResult
  | _, [] => LoopResult.ok []
  | i, inst :: rest =>
    match addOneInstance (envs i) inst service with
    | Except.error e => LoopResult.fail i e
    | Except.ok item =>
      match runInstancesLoop service envs (i + 1) rest with
      | LoopResult.fail j e => LoopResult.fail j e
      | LoopResult.ok items => LoopResult.ok (item :: items)

/-- The three scoped browser resources. -/
inductive Resource where
  | page
  | context
  | browser
deriving DecidableEq, Repr

/-- Field `estimateSummary` of `OutputJSON`. -/
structure EstimateSummary where
  lineItems : List LineItem
  totalText : Option String
deriving DecidableEq, Repr

/-- Type `OutputJSON` (artifact paths omitted: the route always runs with
`collectArtifacts: false`).  `csvDownloadUrl`'s outer `Option` is JS
`undefined` (field absent), the inner one is `null`. -/
structure OutputJSON where
  success : Bool
  shareUrl : Option String
  csvDownloadUrl : Option (Option String)
  estimateSummary : Option EstimateSummary
  error : Option String
deriving DecidableEq, Repr

/-- The `catch` branch of `runGcpCalculatorAutomation`: only `success` and
`error` are populated on the failure object. -/
def mkFail (e : String) : OutputJSON :=
  { success := false, shareUrl := Option.none, csvDownloadUrl := Option.none,
    estimateSummary := Option.none, error := some e }

/-- One whole automation session as the driven page presents it.
`preNavError` collapses the navigation/product-picker steps that precede the
instance loop (goto, overlay dismissal, top-level add-to-estimate click,
service-card click, instances toggle) into the first exception any of them
threw, if any.  `totalText` is the first currency-formatted total the scan
found; `shareUrlFound` is the first candidate string any of the three share
strategies produced; `csvLinkHref` is the `http(s)` href of a CSV link when
one exists.  `contextCloseFails` / `browserCloseFails` record whether the
corresponding `close()` call in the `finally` block would itself throw. -/
structure SessionEnv where
  launchOk : Bool
  contextOk : Bool
  pageOk : Bool
  preNavError : Option String
  instEnv : Nat → InstanceEnv
  totalText : Option String
  shareClickOk : Bool
  shareUrlFound : Option String
  csvLinkHref : Option String
  contextCloseFails : Bool
  browserCloseFails : Bool

/-- The `try` body of `runGcpCalculatorAutomation` together with its `catch`
conversion to a failure object. -/
def runSession (req : EstimateRequest) (env : SessionEnv) : OutputJSON :=
  if !env.launchOk then mkFail "Failed to launch browser"
  else if !env.contextOk then mkFail "Failed to create browser context"
  else if !env.pageOk then mkFail "Failed to create Playwright page"
  else
    match env.preNavError with
    | some e => mkFail e
    | Option.none =>
      match runInstancesLoop req.service env.instEnv 0 req.instances with
      | LoopResult.fail _ e => mkFail e
      | LoopResult.ok items =>
        match env.totalText with
        | Option.none => mkFail "Total not found or not formatted as currency"
        | some tt =>
          if !env.shareClickOk then mkFail "Failed to click Share button"
          else
            match env.shareUrlFound with
            | Option.none => mkFail "Failed to capture share URL from Share UI"
            | some u =>
              { success := true
                shareUrl := some u
                csvDownloadUrl := if req.wantCsvLink then some env.csvLinkHref else Option.none
                estimateSummary := some { lineItems := items, totalText := some tt }
                error := Option.none }

/-- The `finally` block of `runGcpCalculatorAutomation`: it closes the
context (when `newContext` succeeded) and then the browser (when `launch`
succeeded), each in its own `try`; the page is never closed on its own.
The list records the close calls attempted, in order. -/
def sessionReleases (env : SessionEnv) : List Resource :=
  (if env.launchOk && env.contextOk then [Resource.context] else []) ++
  (if env.launchOk then [Resource.browser] else [])

/-- Function `runGcpCalculatorAutomation`: the session body paired with the resource
releases its `finally` block performs on that same exit path. -/
def runGcpCalculatorAutomation (req : EstimateRequest) (env : SessionEnv) :
    OutputJSON × List Resource :=
  (runSession req env, sessionReleases env)

/-- The `finally` block of the inline-automation route handler's `POST`
(`app/api/generate-gcp-url/route.ts`): it closes the page (when one was
created) and then the browser (when launched); the context is never
closed. -/
def routeFinallyReleases (pageAcquired browserAcquired : Bool) : List Resource :=
  (if pageAcquired then [Resource.page] else []) ++
  (if browserAcquired then [Resource.browser] else [])

/-! ## Adapter-based API route (`app/api/generate-gcp-url/route.ts`, the
variant delegating to `runGcpCalculatorAutomation`) -/

/-- The `options` object of the request body. -/
structure PostOptions where
  headless : Option Bool
  timeout : Option Rat
  wantCsvLink : Option Bool
deriving Repr

/-- The observable outcome of the `POST` handler: HTTP status, payload
fields, and whether `runGcpCalculatorAutomation` (the only code that
launches a browser) was invoked at all. -/
structure PostResponse where
  success : Bool
  status : Nat
  shareUrl : Option String
  error : Option String
  automationInvoked : Bool
deriving DecidableEq, Repr

/-- The validation-failure message: one `name: errors` chunk per failing
configuration, joined by `'; '`. -/
def validationErrorMessage (v : ValidationResult) : String :=
  String.intercalate "; "
    (v.errors.map (fun err => err.configName ++ ": " ++ String.intercalate ", " err.errors))

/-- The `POST` handler: validate, convert, run the automation, and map its
result onto the HTTP response.  A `TypeError` thrown by the adapter
(conversion = `Option.none`) is caught by the handler's outer `catch` and
surfaces as a 500. -/
def postGenerateGcpUrl (configurations : List VmConfig) (options : PostOptions)
    (env : SessionEnv) : PostResponse :=
  let validation := validateVmConfigsForAutomation configurations
  if !validation.isValid then
    { success := false, status := 400, shareUrl := Option.none,
      error := some ("Configuration validation failed: " ++ validationErrorMessage validation),
      automationInvoked := false }
  else
    match vmConfigsToEstimateRequest configurations
        { headless := options.headless, timeoutMs := options.timeout,
          service := some "Compute Engine",
          wantCsvLink := some (options.wantCsvLink = some true) } with
    | Option.none =>
      { success := false, status := 500, shareUrl := Option.none,
        error := some "TypeError in vmConfigsToEstimateRequest",
        automationInvoked := false }
    | some req =>
      let result := (runGcpCalculatorAutomation req env).1
      if result.success then
        { success := true, status := 200, shareUrl := result.shareUrl,
          error := Option.none, automationInvoked := true }
      else
        { success := false, status := 500, shareUrl := Option.none,
          error := some ((result.error).getD "Unknown automation error"),
          automationInvoked := true }

/-! ## Resilient selector and share-link extraction (the inline-automation
`route.ts`) -/

/-- What one iteration of the `chooseFromCombobox` scroll/retry loop
observes: the rendered options (after a successful reopen when the list had
emptied), a reopen that yielded zero options (`break`), or a thrown
Playwright error that was caught — reconnecting to the list or not
(`break`). -/
inductive ProbeOutcome where
  | optsRendered (opts : List String)
  | reopenFailed
  | thrownReconnected
  | thrownLost
deriving Repr

/-- A combobox as `chooseFromCombobox` sees it.  `probe i` is what loop
iteration `i` observes; the option matcher is a predicate standing for the
caller's `optionRx` tested against each rendered option's accessible
name. -/
structure ChooseEnv where
  comboClickOk : Bool
  ariaControls : Option String
  listVisible : Bool
  probe : Nat → ProbeOutcome

/-- The bounded scroll/retry loop of `chooseFromCombobox`, with an explicit
fuel (the `i < 40` bound) and running iteration index.  Returns whether a
matching option was found together with the number of iterations
executed. -/
def comboProbeLoop (env : ChooseEnv) (optionRx : String → Bool) :
    Nat → Nat → Bool × Nat
  | 0, _ => (false, 0)
  | fuel + 1, i =>
    match env.probe i with
    | ProbeOutcome.reopenFailed => (false, 1)
    | ProbeOutcome.thrownLost => (false, 1)
    | ProbeOutcome.thrownReconnected =>
      let r := comboProbeLoop env optionRx fuel (i + 1)
      (r.1, r.2 + 1)
    | ProbeOutcome.optsRendered opts =>
      if opts.any optionRx then (true, 1)
      else
        let r := comboProbeLoop env optionRx fuel (i + 1)
        (r.1, r.2 + 1)

/-- Function `chooseFromCombobox`: throws only for structural failures (the combobox
itself unclickable, no `aria-controls`, the list never visible); otherwise
runs the 40-iteration probe loop and reports found / not-found. -/
def chooseFromCombobox (env : ChooseEnv) (optionRx : String → Bool) : Except String Bool :=
  if !env.comboClickOk then Except.error "failed to click combobox"
  else
    match env.ariaControls with
    | Option.none => Except.error "combobox has no aria-controls"
    | some _ =>
      if !env.listVisible then Except.error "options list did not become visible"
      else Except.ok (comboProbeLoop env optionRx 40 0).1

/-- The number of scroll/retry iterations `chooseFromCombobox` executes. -/
def chooseFromComboboxIterations (env : ChooseEnv) (optionRx : String → Bool) : Nat :=
  (comboProbeLoop env optionRx 40 0).2

/-- A machine-type combobox as `chooseMachineType` sees it.  `dataValueHit t`
/ `textHit t` say whether, after `t` scrolls, the list renders an option
with `data-value` equal to the code / an option whose name matches the
escaped case-insensitive code regex; `scrollOk t` is whether the direct
scroll at iteration `t` succeeded (a throw breaks the loop);
`highlighted j` is the highlighted option's text at keyboard step `j`
(`""` when the read failed); `keyboardOk` is whether the keyboard strategy's
surrounding `try` survived at all. -/
structure MachineTypeEnv where
  comboClickOk : Bool
  ariaControls : Option String
  listVisible : Bool
  dataValueHit : Nat → Bool
  textHit : Nat → Bool
  scrollOk : Nat → Bool
  highlighted : Nat → String
  keyboardOk : Bool

/-- Strategy 3 of `chooseMachineType`: the 60-iteration scroll loop, with
explicit fuel, returning found / not-found and the iterations executed. -/
def mtScrollLoop (env : MachineTypeEnv) : Nat → Nat → Bool × Nat
  | 0, _ => (false, 0)
  | fuel + 1, i =>
    if env.dataValueHit i || env.textHit i then (true, 1)
    else if !env.scrollOk i then (false, 1)
    else
      let r := mtScrollLoop env fuel (i + 1)
      (r.1, r.2 + 1)

/-- Strategy 4 of `chooseMachineType`: up to 100 arrow-key steps reading the
highlighted option, confirming on a case-insensitive containment match with
a non-empty text. -/
def mtKeyboardLoop (env : MachineTypeEnv) (code : String) : Nat → Nat → Bool
  | 0, _ => false
  | fuel + 1, j =>
    if env.highlighted j ≠ "" && strIncludes (strLower (env.highlighted j)) (strLower code) then
      true
    else mtKeyboardLoop env code fuel (j + 1)

/-- Function `chooseMachineType`: structural throws as in `chooseFromCombobox`, then
strategy 1 (`data-value`), strategy 2 (name regex), the bounded scroll loop,
the keyboard fallback, and finally not-found. -/
def chooseMachineType (env : MachineTypeEnv) (code : String) : Except String Bool :=
  if !env.comboClickOk then Except.error "failed to click combobox"
  else
    match env.ariaControls with
    | Option.none => Except.error "combobox has no aria-controls"
    | some _ =>
      if !env.listVisible then Except.error "options list did not become visible"
      else if env.dataValueHit 0 then Except.ok true
      else if env.textHit 0 then Except.ok true
      else if (mtScrollLoop env 60 0).1 then Except.ok true
      else if env.keyboardOk && mtKeyboardLoop env code 100 0 then Except.ok true
      else Except.ok false

/-- The number of scroll iterations `chooseMachineType`'s strategy-3 loop
executes. -/
def chooseMachineTypeIterations (env : MachineTypeEnv) : Nat :=
  (mtScrollLoop env 60 0).2

/-- The share surface as `generateShareLink` sees it: whether the share
button and a copy-link control could be clicked, and what
`navigator.clipboard.readText()` returned afterwards. -/
structure ShareLinkEnv where
  shareBtnClickOk : Bool
  copyBtnVisible : Bool
  copyClickOk : Bool
  clipboardText : String
deriving DecidableEq, Repr

/-- Function `generateShareLink`: click share, find and click a copy-link control,
read the clipboard, and accept the text iff it is truthy and contains the
substring `cloud.google.com`. -/
def generateShareLink (env : ShareLinkEnv) : Except String String :=
  if !env.shareBtnClickOk then Except.error "failed to click share button"
  else if !env.copyBtnVisible then Except.error "Could not find copy link button"
  else if !env.copyClickOk then Except.error "failed to click copy link button"
  else if env.clipboardText ≠ "" && strIncludes env.clipboardText "cloud.google.com" then
    Except.ok env.clipboardText
  else Except.error "Share URL not found in clipboard"

/-- Modelled from the spec: the spec's acceptance predicate "a syntactically
valid absolute URL on the target domain (cloud.google.com)" — an absolute
`http(s)` URL whose host is exactly `cloud.google.com`.  Stated for
comparison with what the code actually checks. -/
def isAbsoluteUrlOnCloudGoogle (u : String) : Bool :=
  strStarts "https://cloud.google.com/" u || u == "https://cloud.google.com" ||
  strStarts "http://cloud.google.com/" u || u == "http://cloud.google.com"

/-! ## Concrete fixtures (Scenario A of the spec and variations) -/

/-- Scenario A's single instance descriptor. -/
def instW : InstanceInput :=
  { numberOfInstances := 1, totalHours := 730, operatingSystem := "Linux",
    provisioningModel := "Regular", series := "E2", machineType := "e2-standard-2",
    region := "Iowa (us-central1)", committedUse := CommittedUse.none }

/-- A combobox whose open list renders exactly the one label we want and
reflects it after selection. -/
def goodCombo (label : String) : ComboEnv :=
  { openOk := true, list := { visible := true, options := [label] }, comboText := label }

/-- A page on which every stage of `addOneInstance` succeeds for `instW`. -/
def goodInstEnv : InstanceEnv :=
  { numFillOk := true, hoursPresent := true, hoursFillOk := true,
    osCombo := goodCombo "Linux", provCombo := goodCombo "Regular",
    seriesCombo := goodCombo "E2", machineCombo := goodCombo "e2-standard-2",
    regionCombo := goodCombo "Iowa (us-central1)",
    radioNone := true, radio1y := false, radio3y := false,
    cudCombo := goodCombo "None",
    addBtnOk := true, panelVisible := true, expectTextsOk := true,
    subtotalText := some "$49.31" }

/-- Like `goodInstEnv` but the pane's add-to-estimate (Commit) click fails
through all its retries. -/
def badCommitEnv : InstanceEnv :=
  { goodInstEnv with addBtnOk := false }

/-- A well-formed share URL fixture. -/
def shareUrlW : String := "https://cloud.google.com/products/calculator?id=abc123"

/-- Scenario A's request. -/
def reqW : EstimateRequest :=
  { headless := true, timeoutMs := some 45000, service := "Compute Engine",
    instances := [instW], wantCsvLink := false }

/-- A session on which everything succeeds. -/
def envW : SessionEnv :=
  { launchOk := true, contextOk := true, pageOk := true, preNavError := Option.none,
    instEnv := fun _ => goodInstEnv, totalText := some "$49.31 / month",
    shareClickOk := true, shareUrlFound := some shareUrlW, csvLinkHref := Option.none,
    contextCloseFails := false, browserCloseFails := false }

/-- Three copies of Scenario A's instance. -/
def req3 : EstimateRequest :=
  { reqW with instances := [instW, instW, instW] }

/-- A session on which only the second instance's Commit click fails. -/
def env3 : SessionEnv :=
  { envW with instEnv := fun j => if j == 1 then badCommitEnv else goodInstEnv,
              totalText := some "$147.93 / month" }

/-- Scenario A's instance asking for Windows instead, on a page whose OS
dropdown only offers Linux. -/
def instX : InstanceInput :=
  { instW with operatingSystem := "Windows" }

/-- Relation `EchoesInstance inst item`: `item` echoes the request fields of `inst`. -/
def EchoesInstance (inst : InstanceInput) (item : LineItem) : Prop :=
  item.region = inst.region ∧ item.series = inst.series ∧
  item.machineType = inst.machineType ∧ item.instances = inst.numberOfInstances ∧
  item.totalHours = inst.totalHours ∧ item.committedUse = inst.committedUse ∧
  item.os = inst.operatingSystem

/-- A structurally sound combobox that renders options on every probe. -/
def chooseEnvOkW : ChooseEnv :=
  { comboClickOk := true, ariaControls := some "option-list-id", listVisible := true,
    probe := fun _ => ProbeOutcome.optsRendered ["Iowa (us-central1)"] }

/-- A combobox missing its `aria-controls` relationship. -/
def chooseEnvNoAria : ChooseEnv :=
  { chooseEnvOkW with ariaControls := Option.none }

/-- A matcher that never matches (the desired option does not exist). -/
def rxNever : String → Bool := fun _ => false

/-- A structurally sound machine-type combobox on which no strategy ever
finds the code. -/
def mtEnvOkW : MachineTypeEnv :=
  { comboClickOk := true, ariaControls := some "option-list-id", listVisible := true,
    dataValueHit := fun _ => false, textHit := fun _ => false,
    scrollOk := fun _ => true, highlighted := fun _ => "", keyboardOk := true }

/-- The same machine-type combobox without `aria-controls`. -/
def mtEnvNoAria : MachineTypeEnv :=
  { mtEnvOkW with ariaControls := Option.none }

/-- A share surface whose clipboard holds a well-formed calculator URL. -/
def shareEnvGood : ShareLinkEnv :=
  { shareBtnClickOk := true, copyBtnVisible := true, copyClickOk := true,
    clipboardText := shareUrlW }

/-- A share surface whose clipboard holds prose that merely mentions the
domain. -/
def shareEnvBad : ShareLinkEnv :=
  { shareBtnClickOk := true, copyBtnVisible := true, copyClickOk := true,
    clipboardText := "see cloud.google.com docs" }

/-- A fully valid configuration (the repository's own test fixture,
`createTestVmConfig`, restricted to the modelled fields). -/
def cfgOk : VmConfig :=
  { id := "test-1", name := "e2-standard-2", series := "e2",
    regionLocation := "us-central1", os := some "linux",
    provisioningModel := some "regular", quantity := some 1,
    runningHours := some 730, discountModel := "On-Demand" }

/-- Fixture `cfgOk` with its quantity missing (not a number at runtime). -/
def cfgNoQuantity : VmConfig :=
  { cfgOk with quantity := Option.none }

/-- A Spot VM configuration. -/
def spotCfg : VmConfig :=
  { cfgOk with discountModel := "Spot VM", provisioningModel := some "spot" }

/-- The descriptor the adapter produces from `spotCfg`. -/
def instSpot : InstanceInput :=
  { numberOfInstances := 1, totalHours := 730, operatingSystem := "Linux",
    provisioningModel := "spot", series := "E2", machineType := "e2-standard-2",
    region := "Iowa (us-central1)", committedUse := CommittedUse.none }

/-! ## Claims -/

/-- Claim C2: A request whose instances list is empty is rejected with a 400
validation failure before the automation (and hence any browser launch) is
invoked: `validateVmConfigsForAutomation` runs first and returns
`isValid = false` for the empty list. -/
theorem empty_request_rejected_before_browser_launch
    (options : PostOptions) (env : SessionEnv) :
    postGenerateGcpUrl [] options env =
      { success := false, status := 400, shareUrl := Option.none,
        error := some
          "Configuration validation failed: General: At least one configuration is required",
        automationInvoked := false } ∧
    (validateVmConfigsForAutomation []).isValid = false := by
  constructor
  · rfl
  · rfl

/-- Claim C9: The pre-flight descriptor bounds check accepts a configuration
(returns no errors) iff its machine type name, series, region location and
discount model are non-blank, its quantity is a number ≥ 1, and its running
hours is a number in [1, 744]; each violated condition contributes its
corresponding error message. -/
theorem validate_vm_config_characterisation (config : VmConfig) :
    (validateVmConfigForAutomation config = [] ↔
      (strTrim config.name ≠ "" ∧ strTrim config.series ≠ "" ∧
       strTrim config.regionLocation ≠ "" ∧ strTrim config.discountModel ≠ "" ∧
       (∃ q, config.quantity = some q ∧ 1 ≤ q) ∧
       (∃ hrs, config.runningHours = some hrs ∧ 1 ≤ hrs ∧ hrs ≤ 744))) ∧
    (strTrim config.name = "" →
      "Machine type name is required" ∈ validateVmConfigForAutomation config) ∧
    (strTrim config.series = "" →
      "Machine series is required" ∈ validateVmConfigForAutomation config) ∧
    (strTrim config.regionLocation = "" →
      "Region location is required" ∈ validateVmConfigForAutomation config) ∧
    (strTrim config.discountModel = "" →
      "Discount model is required" ∈ validateVmConfigForAutomation config) ∧
    ((config.quantity = Option.none ∨ ∃ q, config.quantity = some q ∧ q < 1) →
      "Quantity must be a positive number" ∈ validateVmConfigForAutomation config) ∧
    ((config.runningHours = Option.none ∨
        ∃ hrs, config.runningHours = some hrs ∧ (hrs < 1 ∨ 744 < hrs)) →
      "Running hours must be between 1 and 744 (max hours per month)" ∈
        validateVmConfigForAutomation config) := by
  obtain ⟨id, name, series, regionLocation, os, provisioningModel,
          quantity, runningHours, discountModel⟩ := config
  unfold validateVmConfigForAutomation
  cases quantity <;> cases runningHours <;>
    split_ifs <;>
    simp_all [not_lt, not_or, List.mem_append]

/-- Witness for C9: the repository's own test configuration passes the
bounds check, and dropping its quantity yields the quantity error. -/
theorem validate_vm_config_characterisation_witness :
    validateVmConfigForAutomation cfgOk = [] ∧
    "Quantity must be a positive number" ∈ validateVmConfigForAutomation cfgNoQuantity :=
  ⟨(validate_vm_config_characterisation cfgOk).1.mpr
      ⟨by decide, by decide, by decide, by decide,
       ⟨1, rfl, le_refl 1⟩, ⟨730, rfl, by decide, by decide⟩⟩,
   (validate_vm_config_characterisation cfgNoQuantity).2.2.2.2.2.1 (Or.inl rfl)⟩

/-- Claim C10: The discount-model → committed-use mapping is total over the
three-value codomain, sends `On-Demand`, `Spot VM` and every unrecognized
model to `none`, and consequently every descriptor the adapter produces
from a Spot VM configuration carries `committedUse = none`. -/
theorem committed_use_mapping_total_spot_none :
    (∀ s, mapDiscountModelToCommittedUse s = CommittedUse.none ∨
          mapDiscountModelToCommittedUse s = CommittedUse.oneYear ∨
          mapDiscountModelToCommittedUse s = CommittedUse.threeYears) ∧
    mapDiscountModelToCommittedUse "On-Demand" = CommittedUse.none ∧
    mapDiscountModelToCommittedUse "Spot VM" = CommittedUse.none ∧
    (∀ s, strLower s ∉ (["1-year cud", "1 year cud", "1-year", "1 year",
        "3-year cud", "3 year cud", "3-year", "3 years"] : List String) →
      mapDiscountModelToCommittedUse s = CommittedUse.none) ∧
    (∀ config inst, vmConfigToInstanceInput config = some inst →
      config.discountModel = "Spot VM" → inst.committedUse = CommittedUse.none) := by
  refine ⟨?_, by decide, by decide, ?_, ?_⟩
  · intro s
    simp only [mapDiscountModelToCommittedUse]
    split_ifs <;> simp
  · intro s hs
    simp only [List.mem_cons, List.not_mem_nil, or_false, not_or] at hs
    simp only [mapDiscountModelToCommittedUse]
    split_ifs with hy h3 <;> first | rfl | (exact absurd hy (by tauto))
  · intro config inst h hd
    unfold vmConfigToInstanceInput at h
    cases hm : mapDiscountModelToProvisioningModel config <;> rw [hm] at h
    · exact absurd h (by simp)
    · simp only [Option.some.injEq] at h
      rw [← h, hd]
      show mapDiscountModelToCommittedUse "Spot VM" = CommittedUse.none
      decide

/-- Witness for C10: an unrecognized model maps to `none`, and the
descriptor produced from the Spot VM fixture carries `none`. -/
theorem committed_use_mapping_total_spot_none_witness :
    mapDiscountModelToCommittedUse "random-model" = CommittedUse.none ∧
    instSpot.committedUse = CommittedUse.none :=
  ⟨committed_use_mapping_total_spot_none.2.2.2.1 "random-model" (by decide),
   committed_use_mapping_total_spot_none.2.2.2.2 spotCfg instSpot (by decide) rfl⟩

/-- Claim C1, counterexample.  `generateShareLink` accepts any non-empty
clipboard text containing the substring `cloud.google.com`: prose that is
not an absolute URL on that domain is returned as the share URL, so a
successful result need not carry a syntactically valid absolute URL. -/
theorem shareUrl_syntactic_validity_counterexample :
    generateShareLink shareEnvBad = Except.ok "see cloud.google.com docs" ∧
    isAbsoluteUrlOnCloudGoogle "see cloud.google.com docs" = false := by
  exact ⟨rfl, rfl⟩

/-- Claim C1, amended.  What success actually guarantees: the extracted
share URL is a non-empty string containing the substring
`cloud.google.com` (a containment check, not URL-syntax validation). -/
theorem shareUrl_contains_target_domain (env : ShareLinkEnv) (u : String)
    (h : generateShareLink env = Except.ok u) :
    u ≠ "" ∧ strIncludes u "cloud.google.com" = true := by
  unfold generateShareLink at h
  split_ifs at h with h1 h2 h3 h4
  rw [Except.ok.injEq] at h
  simp only [Bool.and_eq_true] at h4
  obtain ⟨h5, h6⟩ := h4
  rw [← h]
  exact ⟨of_decide_eq_true h5, h6⟩

/-- Witness for the amended C1 at the good share surface. -/
theorem shareUrl_contains_target_domain_witness :
    shareUrlW ≠ "" ∧ strIncludes shareUrlW "cloud.google.com" = true :=
  shareUrl_contains_target_domain shareEnvGood shareUrlW rfl

/-- The probe loop of `chooseFromCombobox` reports not-found when no
iteration ever renders a matching option. -/
theorem comboProbeLoop_no_match (env : ChooseEnv) (optionRx : String → Bool)
    (hnm : ∀ i opts, env.probe i = ProbeOutcome.optsRendered opts →
      opts.any optionRx = false) :
    ∀ fuel i, (comboProbeLoop env optionRx fuel i).1 = false := by
  intro fuel
  induction fuel with
  | zero => intro i; rfl
  | succ n ih =>
    intro i
    unfold comboProbeLoop
    cases hp : env.probe i with
    | optsRendered opts => dsimp only; rw [hnm i opts hp]; simp [ih]
    | reopenFailed => rfl
    | thrownReconnected => dsimp only; simp [ih]
    | thrownLost => rfl

/-- The scroll loop of `chooseMachineType` reports not-found when neither
lookup ever hits. -/
theorem mtScrollLoop_no_match (env : MachineTypeEnv)
    (h1 : ∀ t, env.dataValueHit t = false) (h2 : ∀ t, env.textHit t = false) :
    ∀ fuel i, (mtScrollLoop env fuel i).1 = false := by
  intro fuel
  induction fuel with
  | zero => intro i; rfl
  | succ n ih =>
    intro i
    unfold mtScrollLoop
    rw [h1 i, h2 i]
    cases env.scrollOk i <;> simp [ih]

/-- The keyboard fallback of `chooseMachineType` reports not-found when the
highlighted text never contains the code. -/
theorem mtKeyboardLoop_no_match (env : MachineTypeEnv) (code : String)
    (h : ∀ j, strIncludes (strLower (env.highlighted j)) (strLower code) = false) :
    ∀ fuel j, mtKeyboardLoop env code fuel j = false := by
  intro fuel
  induction fuel with
  | zero => intro j; rfl
  | succ n ih =>
    intro j
    unfold mtKeyboardLoop
    rw [h j]
    simp [ih]

/-- Claim C6: The resilient selectors report not-found as `Except.ok false`
after exhausting their strategies and never throw for not-found; they throw
only for structural failures such as a combobox lacking its `aria-controls`
relationship to the option list. -/
theorem selector_not_found_no_throw :
    (∀ (env : ChooseEnv) (optionRx : String → Bool),
      (env.comboClickOk = true → env.ariaControls.isSome = true →
        env.listVisible = true →
        ∃ b, chooseFromCombobox env optionRx = Except.ok b) ∧
      (env.comboClickOk = true → env.ariaControls = Option.none →
        chooseFromCombobox env optionRx = Except.error "combobox has no aria-controls") ∧
      (env.comboClickOk = true → env.ariaControls.isSome = true →
        env.listVisible = true →
        (∀ i opts, env.probe i = ProbeOutcome.optsRendered opts →
          opts.any optionRx = false) →
        chooseFromCombobox env optionRx = Except.ok false)) ∧
    (∀ (env : MachineTypeEnv) (code : String),
      (env.comboClickOk = true → env.ariaControls.isSome = true →
        env.listVisible = true →
        ∃ b, chooseMachineType env code = Except.ok b) ∧
      (env.comboClickOk = true → env.ariaControls = Option.none →
        chooseMachineType env code = Except.error "combobox has no aria-controls") ∧
      (env.comboClickOk = true → env.ariaControls.isSome = true →
        env.listVisible = true →
        (∀ t, env.dataValueHit t = false) → (∀ t, env.textHit t = false) →
        (∀ j, strIncludes (strLower (env.highlighted j)) (strLower code) = false) →
        chooseMachineType env code = Except.ok false)) := by
  constructor
  · intro env optionRx
    refine ⟨?_, ?_, ?_⟩
    · intro hc ha hl
      obtain ⟨a, ha'⟩ := Option.isSome_iff_exists.mp ha
      unfold chooseFromCombobox
      rw [hc, ha', hl]
      exact ⟨_, rfl⟩
    · intro hc ha
      unfold chooseFromCombobox
      rw [hc, ha]
      rfl
    · intro hc ha hl hnm
      obtain ⟨a, ha'⟩ := Option.isSome_iff_exists.mp ha
      unfold chooseFromCombobox
      rw [hc, ha', hl]
      simp [comboProbeLoop_no_match env optionRx hnm 40 0]
  · intro env code
    refine ⟨?_, ?_, ?_⟩
    · intro hc ha hl
      obtain ⟨a, ha'⟩ := Option.isSome_iff_exists.mp ha
      unfold chooseMachineType
      simp only [hc, ha', hl, Bool.not_true, Bool.false_eq_true, if_false]
      split_ifs <;> exact ⟨_, rfl⟩
    · intro hc ha
      unfold chooseMachineType
      rw [hc, ha]
      rfl
    · intro hc ha hl h1 h2 h3
      obtain ⟨a, ha'⟩ := Option.isSome_iff_exists.mp ha
      unfold chooseMachineType
      rw [hc, ha', hl, h1 0, h2 0]
      rw [mtScrollLoop_no_match env h1 h2 60 0, mtKeyboardLoop_no_match env code h3 100 0]
      simp

/-- Witness for C6: a never-matching pattern yields `ok false` on a sound
combobox, and a missing `aria-controls` yields the structural error. -/
theorem selector_not_found_no_throw_witness :
    chooseFromCombobox chooseEnvOkW rxNever = Except.ok false ∧
    chooseMachineType mtEnvNoAria "e2-standard-2" =
      Except.error "combobox has no aria-controls" :=
  ⟨(selector_not_found_no_throw.1 chooseEnvOkW rxNever).2.2 rfl rfl rfl
      (fun _ opts hp => by cases hp; rfl),
   (selector_not_found_no_throw.2 mtEnvNoAria "e2-standard-2").2.1 rfl rfl⟩

/-- The probe loop executes at most `fuel` iterations. -/
theorem comboProbeLoop_iterations_le (env : ChooseEnv) (optionRx : String → Bool) :
    ∀ fuel i, (comboProbeLoop env optionRx fuel i).2 ≤ fuel := by
  intro fuel
  induction fuel with
  | zero => intro i; exact Nat.le_refl 0
  | succ n ih =>
    intro i
    unfold comboProbeLoop
    cases env.probe i with
    | optsRendered opts =>
      dsimp only
      split_ifs
      · exact Nat.succ_le_succ (Nat.zero_le n)
      · exact Nat.succ_le_succ (ih (i + 1))
    | reopenFailed => exact Nat.succ_le_succ (Nat.zero_le n)
    | thrownReconnected => dsimp only; exact Nat.succ_le_succ (ih (i + 1))
    | thrownLost => exact Nat.succ_le_succ (Nat.zero_le n)

/-- The machine-type scroll loop executes at most `fuel` iterations. -/
theorem mtScrollLoop_iterations_le (env : MachineTypeEnv) :
    ∀ fuel i, (mtScrollLoop env fuel i).2 ≤ fuel := by
  intro fuel
  induction fuel with
  | zero => intro i; exact Nat.le_refl 0
  | succ n ih =>
    intro i
    unfold mtScrollLoop
    split_ifs
    · exact Nat.succ_le_succ (Nat.zero_le n)
    · exact Nat.succ_le_succ (Nat.zero_le n)
    · exact Nat.succ_le_succ (ih (i + 1))

/-- Claim C7: The virtualization scroll-probe loops are bounded:
`chooseFromCombobox` performs at most 40 scroll/retry iterations and
`chooseMachineType`'s code-search loop at most 60 scroll iterations, on
every environment. -/
theorem selector_iteration_caps :
    (∀ (env : ChooseEnv) (optionRx : String → Bool),
        chooseFromComboboxIterations env optionRx ≤ 40) ∧
    (∀ env : MachineTypeEnv, chooseMachineTypeIterations env ≤ 60) :=
  ⟨fun env optionRx => comboProbeLoop_iterations_le env optionRx 40 0,
   fun env => mtScrollLoop_iterations_le env 60 0⟩

/-- The only successful exit of `addOneInstance` yields the echo line item
built from the instance and the scraped subtotal. -/
theorem addOneInstance_ok_eq {env : InstanceEnv} {inst : InstanceInput}
    {service : String} {item : LineItem}
    (h : addOneInstance env inst service = Except.ok item) :
    item = mkLineItem service inst env.subtotalText := by
  unfold addOneInstance addOneInstanceAux commitStage at h
  repeat' split at h
  all_goals simp_all

/-- When the instance loop succeeds, its items echo the request instances
pointwise, in order. -/
theorem runInstancesLoop_ok_forall2 (service : String) (envs : Nat → InstanceEnv) :
    ∀ (insts : List InstanceInput) (i : Nat) (items : List LineItem),
      runInstancesLoop service envs i insts = LoopResult.ok items →
      List.Forall₂ EchoesInstance insts items := by
  intro insts
  induction insts with
  | nil =>
    intro i items h
    unfold runInstancesLoop at h
    injection h with h'
    rw [← h']
    exact List.Forall₂.nil
  | cons inst rest ih =>
    intro i items h
    unfold runInstancesLoop at h
    cases ha : addOneInstance (envs i) inst service with
    | error e => rw [ha] at h; simp at h
    | ok item =>
      rw [ha] at h
      dsimp only at h
      cases hr : runInstancesLoop service envs (i + 1) rest with
      | fail j e => rw [hr] at h; simp at h
      | ok items' =>
        rw [hr] at h
        dsimp only at h
        injection h with h'
        rw [← h']
        refine List.Forall₂.cons ?_ (ih (i + 1) items' hr)
        rw [addOneInstance_ok_eq ha]
        exact ⟨rfl, rfl, rfl, rfl, rfl, rfl, rfl⟩

/-- In a successful session the instance loop succeeded, a currency total
was extracted, and the summary holds exactly the loop's items with that
total. -/
theorem runSession_success_eq (req : EstimateRequest) (env : SessionEnv)
    (h : (runSession req env).success = true) :
    ∃ items tt,
      runInstancesLoop req.service env.instEnv 0 req.instances = LoopResult.ok items ∧
      env.totalText = some tt ∧
      (runSession req env).estimateSummary =
        some { lineItems := items, totalText := some tt } := by
  unfold runSession at h ⊢
  repeat' split at h
  all_goals simp_all [mkFail]

/-- Claim C5: On a successful run, `estimateSummary.lineItems` has exactly one
entry per requested instance, in request order, each echoing the matching
instance's region, series, machine type, instance count, total hours,
committed use and operating system. -/
theorem lineItems_echo_request_order (req : EstimateRequest) (env : SessionEnv)
    (h : (runGcpCalculatorAutomation req env).1.success = true) :
    ∃ items tt,
      (runGcpCalculatorAutomation req env).1.estimateSummary =
        some { lineItems := items, totalText := some tt } ∧
      items.length = req.instances.length ∧
      List.Forall₂ EchoesInstance req.instances items := by
  obtain ⟨items, tt, hloop, htt, hsum⟩ := runSession_success_eq req env h
  have hall := runInstancesLoop_ok_forall2 req.service env.instEnv req.instances 0 items hloop
  exact ⟨items, tt, hsum, hall.length_eq.symm, hall⟩

/-- Witness for C5: Scenario A succeeds and its single line item echoes the
instance. -/
theorem lineItems_echo_request_order_witness :
    ∃ items tt,
      (runGcpCalculatorAutomation reqW envW).1.estimateSummary =
        some { lineItems := items, totalText := some tt } ∧
      items.length = reqW.instances.length ∧
      List.Forall₂ EchoesInstance reqW.instances items :=
  lineItems_echo_request_order reqW envW (by rfl)

/-- Claim C3, counterexample.  With three instances of which only the second
fails its Commit click, one instance did commit and total/share extraction
would succeed, yet the session returns `success = false` and records no
per-instance results at all: the loop aborts at the failing instance and
its exception fails the whole session. -/
theorem commit_failure_aborts_session_counterexample :
    addOneInstance goodInstEnv instW "Compute Engine" =
      Except.ok (mkLineItem "Compute Engine" instW (some "$49.31")) ∧
    addOneInstance badCommitEnv instW "Compute Engine" =
      Except.error "Failed to click Add to estimate (pane)" ∧
    env3.totalText = some "$147.93 / month" ∧
    env3.shareUrlFound = some shareUrlW ∧
    runInstancesLoop "Compute Engine" env3.instEnv 0 req3.instances =
      LoopResult.fail 1 "Failed to click Add to estimate (pane)" ∧
    (runGcpCalculatorAutomation req3 env3).1.success = false ∧
    (runGcpCalculatorAutomation req3 env3).1.estimateSummary = Option.none :=
  ⟨rfl, rfl, rfl, rfl, rfl, rfl, rfl⟩

/-- Claim C3, amended.  A per-instance Commit failure aborts the run at that
instance: the loop's exception fails the whole session, which returns the
bare failure object (no summary, no share URL) carrying that error. -/
theorem commit_failure_fails_session (req : EstimateRequest) (env : SessionEnv)
    (h1 : env.launchOk = true) (h2 : env.contextOk = true) (h3 : env.pageOk = true)
    (h4 : env.preNavError = Option.none) (i : Nat) (e : String)
    (h5 : runInstancesLoop req.service env.instEnv 0 req.instances = LoopResult.fail i e) :
    (runGcpCalculatorAutomation req env).1 = mkFail e := by
  show runSession req env = mkFail e
  unfold runSession
  rw [h1, h2, h3, h4, h5]
  rfl

/-- Witness for the amended C3 at the three-instance fixture. -/
theorem commit_failure_fails_session_witness :
    (runGcpCalculatorAutomation req3 env3).1 =
      mkFail "Failed to click Add to estimate (pane)" :=
  commit_failure_fails_session req3 env3 rfl rfl rfl rfl 1
    "Failed to click Add to estimate (pane)" (by rfl)

/-- Claim C4, counterexample.  An OS option absent from the rendered dropdown
(Windows requested, only Linux offered) makes `addOneInstance` rethrow
`pickFromOpenList`'s error and abort before the Commit stage — the stage is
not skipped and the instance never reaches Commit. -/
theorem os_stage_failure_counterexample :
    (addOneInstanceAux goodInstEnv instX "Compute Engine").2 =
      Except.error "Option not found in dropdown: \"Windows\"" ∧
    Stage.commit ∉ (addOneInstanceAux goodInstEnv instX "Compute Engine").1 :=
  ⟨rfl, by decide⟩

/-- Commit is recorded in the attempted-stage trace on every branch of the
commit tail. -/
theorem commit_mem_commitStage (env : InstanceEnv) (inst : InstanceInput)
    (service : String) (t2 : List Stage) :
    Stage.commit ∈ (commitStage env inst service t2).1 := by
  unfold commitStage
  split_ifs <;> simp

/-- Claim C4, amended.  The non-Commit dropdown stages of `addOneInstance`
(operating system, provisioning model, series, machine type, region, and
the committed-use combobox consulted when no suitable radio exists) are not
best-effort: a failure of any of them makes the instance return that error
with the Commit stage never reached, as does a failed instance-count or
usage-hours fill; the only skipped stage is usage hours when its input is
absent (execution then proceeds exactly as if the fill had succeeded), and
when every dropdown stage succeeds the instance does reach its Commit
step. -/
theorem dropdown_stage_failure_aborts_before_commit (env : InstanceEnv)
    (inst : InstanceInput) (service : String) :
    (((∃ e, selectComboboxOption env.osCombo inst.operatingSystem = Except.error e) ∨
      (∃ e, selectComboboxOption env.provCombo inst.provisioningModel = Except.error e) ∨
      (∃ e, selectComboboxOption env.seriesCombo inst.series = Except.error e) ∨
      (∃ e, selectComboboxOption env.machineCombo inst.machineType = Except.error e) ∨
      (∃ e, selectComboboxOption env.regionCombo inst.region = Except.error e) ∨
      (committedRadioSelected env inst = false ∧
       ∃ e, selectComboboxOption env.cudCombo (committedUseLabel inst.committedUse) =
         Except.error e)) →
      (∃ e, (addOneInstanceAux env inst service).2 = Except.error e) ∧
      Stage.commit ∉ (addOneInstanceAux env inst service).1) ∧
    (∀ b, addOneInstanceAux
        { env with hoursPresent := false, hoursFillOk := b } inst service =
      addOneInstanceAux
        { env with hoursPresent := true, hoursFillOk := true } inst service) ∧
    (env.numFillOk = true →
     (env.hoursPresent = true → env.hoursFillOk = true) →
     (∃ c, selectComboboxOption env.osCombo inst.operatingSystem = Except.ok c) →
     (∃ c, selectComboboxOption env.provCombo inst.provisioningModel = Except.ok c) →
     (∃ c, selectComboboxOption env.seriesCombo inst.series = Except.ok c) →
     (∃ c, selectComboboxOption env.machineCombo inst.machineType = Except.ok c) →
     (∃ c, selectComboboxOption env.regionCombo inst.region = Except.ok c) →
     (committedRadioSelected env inst = true ∨
      ∃ c, selectComboboxOption env.cudCombo (committedUseLabel inst.committedUse) =
        Except.ok c) →
     Stage.commit ∈ (addOneInstanceAux env inst service).1) ∧
    (env.numFillOk = false →
      (∃ e, (addOneInstanceAux env inst service).2 = Except.error e) ∧
      Stage.commit ∉ (addOneInstanceAux env inst service).1) ∧
    (env.numFillOk = true → env.hoursPresent = true → env.hoursFillOk = false →
      (∃ e, (addOneInstanceAux env inst service).2 = Except.error e) ∧
      Stage.commit ∉ (addOneInstanceAux env inst service).1) := by
  refine ⟨?_, ?_, ?_, ?_, ?_⟩
  · intro h
    unfold addOneInstanceAux
    split_ifs with h1 h2 h3
    · exact ⟨⟨_, rfl⟩, by decide⟩
    · exact ⟨⟨_, rfl⟩, by decide⟩
    · cases hos : selectComboboxOption env.osCombo inst.operatingSystem with
      | error e => dsimp only; exact ⟨⟨e, rfl⟩, by decide⟩
      | ok c1 =>
        cases hprov : selectComboboxOption env.provCombo inst.provisioningModel with
        | error e => dsimp only; exact ⟨⟨e, rfl⟩, by decide⟩
        | ok c2 =>
          cases hser : selectComboboxOption env.seriesCombo inst.series with
          | error e => dsimp only; exact ⟨⟨e, rfl⟩, by decide⟩
          | ok c3 =>
            cases hmach : selectComboboxOption env.machineCombo inst.machineType with
            | error e => dsimp only; exact ⟨⟨e, rfl⟩, by decide⟩
            | ok c4 =>
              cases hreg : selectComboboxOption env.regionCombo inst.region with
              | error e => dsimp only; exact ⟨⟨e, rfl⟩, by decide⟩
              | ok c5 =>
                exfalso
                rcases h with ⟨e, he⟩ | ⟨e, he⟩ | ⟨e, he⟩ | ⟨e, he⟩ | ⟨e, he⟩ | ⟨hb, e, he⟩
                · rw [hos] at he; exact Except.noConfusion he
                · rw [hprov] at he; exact Except.noConfusion he
                · rw [hser] at he; exact Except.noConfusion he
                · rw [hmach] at he; exact Except.noConfusion he
                · rw [hreg] at he; exact Except.noConfusion he
                · rw [hb] at h3; exact Bool.noConfusion h3
    · cases hos : selectComboboxOption env.osCombo inst.operatingSystem with
      | error e => dsimp only; exact ⟨⟨e, rfl⟩, by decide⟩
      | ok c1 =>
        cases hprov : selectComboboxOption env.provCombo inst.provisioningModel with
        | error e => dsimp only; exact ⟨⟨e, rfl⟩, by decide⟩
        | ok c2 =>
          cases hser : selectComboboxOption env.seriesCombo inst.series with
          | error e => dsimp only; exact ⟨⟨e, rfl⟩, by decide⟩
          | ok c3 =>
            cases hmach : selectComboboxOption env.machineCombo inst.machineType with
            | error e => dsimp only; exact ⟨⟨e, rfl⟩, by decide⟩
            | ok c4 =>
              cases hreg : selectComboboxOption env.regionCombo inst.region with
              | error e => dsimp only; exact ⟨⟨e, rfl⟩, by decide⟩
              | ok c5 =>
                cases hcud : selectComboboxOption env.cudCombo
                    (committedUseLabel inst.committedUse) with
                | error e => dsimp only; exact ⟨⟨e, rfl⟩, by decide⟩
                | ok c6 =>
                  exfalso
                  rcases h with ⟨e, he⟩ | ⟨e, he⟩ | ⟨e, he⟩ | ⟨e, he⟩ | ⟨e, he⟩ |
                    ⟨hb, e, he⟩
                  · rw [hos] at he; exact Except.noConfusion he
                  · rw [hprov] at he; exact Except.noConfusion he
                  · rw [hser] at he; exact Except.noConfusion he
                  · rw [hmach] at he; exact Except.noConfusion he
                  · rw [hreg] at he; exact Except.noConfusion he
                  · rw [hcud] at he; exact Except.noConfusion he
  · intro b
    rfl
  · intro hnum hhours hos hprov hser hmach hreg hcud
    obtain ⟨c1, hos⟩ := hos
    obtain ⟨c2, hprov⟩ := hprov
    obtain ⟨c3, hser⟩ := hser
    obtain ⟨c4, hmach⟩ := hmach
    obtain ⟨c5, hreg⟩ := hreg
    have hskip : (env.hoursPresent && !env.hoursFillOk) = false := by
      cases hp : env.hoursPresent
      · rfl
      · rw [hhours hp]; rfl
    unfold addOneInstanceAux
    rw [hnum, hskip, hos, hprov, hser, hmach, hreg]
    rcases hcud with hradio | ⟨c6, hcudok⟩
    · rw [hradio]
      exact commit_mem_commitStage env inst service _
    · cases hsel : committedRadioSelected env inst with
      | true => exact commit_mem_commitStage env inst service _
      | false =>
        rw [hcudok]
        exact commit_mem_commitStage env inst service _
  · intro hn
    unfold addOneInstanceAux
    split_ifs with h1 h2 h3
    · exact ⟨⟨_, rfl⟩, by decide⟩
    all_goals (rw [hn] at h1; simp at h1)
  · intro hn hp hf
    unfold addOneInstanceAux
    split_ifs with h1 h2 h3
    · rw [hn] at h1; simp at h1
    · exact ⟨⟨_, rfl⟩, by decide⟩
    all_goals (rw [hp, hf] at h2; simp at h2)

/-- Witness for the amended C4: the Windows-on-a-Linux-only page aborts
before Commit, and Scenario A's instance reaches Commit. -/
theorem dropdown_stage_failure_aborts_before_commit_witness :
    ((∃ e, (addOneInstanceAux goodInstEnv instX "Compute Engine").2 = Except.error e) ∧
      Stage.commit ∉ (addOneInstanceAux goodInstEnv instX "Compute Engine").1) ∧
    Stage.commit ∈ (addOneInstanceAux goodInstEnv instW "Compute Engine").1 :=
  ⟨(dropdown_stage_failure_aborts_before_commit goodInstEnv instX "Compute Engine").1
      (Or.inl ⟨"Option not found in dropdown: \"Windows\"", rfl⟩),
   (dropdown_stage_failure_aborts_before_commit goodInstEnv instW "Compute Engine").2.2.1
      rfl (fun _ => rfl) ⟨"Linux", rfl⟩ ⟨"Regular", rfl⟩ ⟨"E2", rfl⟩
      ⟨"e2-standard-2", rfl⟩ ⟨"Iowa (us-central1)", rfl⟩ (Or.inl rfl)⟩

/-- Claim C8, counterexample.  On a fully successful run the automation's
`finally` closes only the context and then the browser — the page is never
released on its own; the inline route's `finally` closes only the page and
then the browser — the context is never released.  Neither implementation
performs the claimed page-then-context-then-browser triple. -/
theorem resource_release_counterexample :
    (runGcpCalculatorAutomation reqW envW).2 = [Resource.context, Resource.browser] ∧
    ((runGcpCalculatorAutomation reqW envW).2).count Resource.page = 0 ∧
    routeFinallyReleases true true = [Resource.page, Resource.browser] ∧
    (routeFinallyReleases true true).count Resource.context = 0 :=
  ⟨rfl, rfl, rfl, rfl⟩

/-- Claim C8, amended.  On every exit path `runGcpCalculatorAutomation`
releases the context (when acquired) and then the browser (when launched),
each at most once and never the page separately; each close attempt is
independent of whether the other close would fail. -/
theorem resource_release_discipline (req : EstimateRequest) (env : SessionEnv) :
    ((runGcpCalculatorAutomation req env).2.count Resource.context ≤ 1) ∧
    ((runGcpCalculatorAutomation req env).2.count Resource.browser ≤ 1) ∧
    Resource.page ∉ (runGcpCalculatorAutomation req env).2 ∧
    (env.launchOk = true → env.contextOk = true →
      (runGcpCalculatorAutomation req env).2 = [Resource.context, Resource.browser]) ∧
    (∀ b₁ b₂,
      sessionReleases { env with contextCloseFails := b₁, browserCloseFails := b₂ } =
        sessionReleases env) := by
  have hrel : (runGcpCalculatorAutomation req env).2 = sessionReleases env := rfl
  rw [hrel]
  refine ⟨?_, ?_, ?_, ?_, fun b₁ b₂ => rfl⟩ <;>
    · unfold sessionReleases
      cases env.launchOk <;> cases env.contextOk <;> simp

/-- Witness for the amended C8 at the successful fixture. -/
theorem resource_release_discipline_witness :
    (runGcpCalculatorAutomation reqW envW).2 = [Resource.context, Resource.browser] :=
  (resource_release_discipline reqW envW).2.2.2.1 rfl rfl

end GcpCalc
